import Mathlib

/-!
Shallow embedding of `src/services/zkTecoFingerprintBridge.py`, a ctypes bridge
from a request dispatcher to the ZKTeco fingerprint vendor SDK (`libzkfp.dll`).

The vendor DLL is opaque: its behaviour during one request is modelled by an
environment `Env` giving, for each exported function the bridge calls, either
a returned value (`Except.ok`) or a raised Python exception (`Except.error ()`).
The scanner object's attributes (`self.lib`, `self.device_handle`,
`self.db_handle`, `self.is_initialized`) become the `Scanner` structure; the
request-scoped execution state `St` additionally counts how many acquire calls
have happened (the vendor may answer each differently) and records the vendor
functions invoked, in order, as a trace.

Bytes are `Nat` values (< 256 in every run of the real program); buffers the
vendor fills are given by the environment as `List Nat`.
-/

namespace ZKTecoBridge

/-- Vendor SDK exported functions the bridge can invoke (trace alphabet). -/
inductive VCall where
  | vInit
  | vDBInit
  | vGetDeviceCount
  | vOpenDevice
  | vCloseDevice
  | vDBFree
  | vTerminate
  | vAcquire
  | vGenReg
  | vDBMatch
deriving DecidableEq, Repr

/-- Attributes of a `ZKTecoFingerprintScanner` instance (`__init__`, lines 27-34).
`lib` records whether `_load_library` resolved the DLL; handles are `none` when
the Python attribute is `None` (a NULL vendor pointer). -/
structure Scanner where
  lib : Bool
  device_handle : Option Nat
  db_handle : Option Nat
  is_initialized : Bool
deriving DecidableEq, Repr

/-- Behaviour of the vendor DLL during one request. For each exported function,
`Except.error ()` models the ctypes call raising a Python exception, and
`Except.ok` its returned value. `acquireRet` is indexed by how many acquire
calls happened before (enroll captures repeatedly); the buffer-filling calls
return `(return code, reported length, buffer contents written)`. `libLoaded`
is the outcome of `_load_library` in `__init__`. -/
structure Env where
  libLoaded : Bool
  initRet : Except Unit Int
  dbInitRet : Except Unit (Option Nat)
  deviceCountRet : Except Unit Int
  openDeviceRet : Except Unit (Option Nat)
  acquireRet : Nat → Except Unit (Int × Nat × List Nat)
  genRegRet : Except Unit (Int × Nat × List Nat)
  dbMatchRet : Except Unit Int
  closeRet : Except Unit Unit
  dbFreeRet : Except Unit Unit
  terminateRet : Except Unit Unit

/-- Execution state while a request runs: the scanner object, the number of
acquire calls made so far, and the trace of vendor functions invoked. -/
structure St where
  sc : Scanner
  nAcq : Nat
  trace : List VCall
deriving DecidableEq, Repr

/-- Record one vendor function invocation in the trace. -/
def St.call (st : St) (c : VCall) : St :=
  { st with trace := st.trace ++ [c] }

/-- `ZKFP_ERR_OK` (line 20). -/
def ZKFP_ERR_OK : Int := 0

/-- `self.max_template_size = 2048` (line 32). -/
def max_template_size : Nat := 2048

/-- A fresh `ZKTecoFingerprintScanner()`: handles `None`, not initialized,
`lib` set by `_load_library` (modelled by `Env.libLoaded`). -/
def mkScanner (libLoaded : Bool) : Scanner :=
  { lib := libLoaded, device_handle := none, db_handle := none,
    is_initialized := false }

/-- The state `handle_request` starts from (line 347: `scanner = ZKTecoFingerprintScanner()`). -/
def st0 (env : Env) : St :=
  { sc := mkScanner env.libLoaded, nAcq := 0, trace := [] }

/-- `ZKTecoFingerprintScanner.init` (lines 70-102): guard on `self.lib`; call
`ZKFPM_Init`, fail on non-OK return; call `ZKFPM_DBInit`, store its handle,
fail if it is NULL; otherwise set `is_initialized`. Any exception in the
`try` is caught and yields `False`. -/
def init (env : Env) (st : St) : Bool × St :=
  if !st.sc.lib then (false, st)
  else
    match env.initRet with
    | .error _ => (false, st.call .vInit)
    | .ok ret =>
      let st := st.call .vInit
      if ret ≠ ZKFP_ERR_OK then (false, st)
      else
        match env.dbInitRet with
        | .error _ => (false, st.call .vDBInit)
        | .ok h =>
          let st := st.call .vDBInit
          let st := { st with sc := { st.sc with db_handle := h } }
          match h with
          | none => (false, st)
          | some _ => (true, { st with sc := { st.sc with is_initialized := true } })

/-- `get_device_count` (lines 104-118): returns 0 when the library is missing
or the SDK is not initialized, without touching the vendor; otherwise calls
`ZKFPM_GetDeviceCount`, clamping with `max(0, count)`, and 0 on exception. -/
def get_device_count (env : Env) (st : St) : Int × St :=
  if !st.sc.lib || !st.sc.is_initialized then (0, st)
  else
    match env.deviceCountRet with
    | .error _ => (0, st.call .vGetDeviceCount)
    | .ok count => (max 0 count, st.call .vGetDeviceCount)

/-- `open_device` (lines 120-150): guard as above; call `ZKFPM_OpenDevice`;
on a NULL handle the diagnostic prints call `get_device_count` twice
(lines 135 and 137) and the method returns `False`; on a handle, store it and
return `True`; exceptions yield `False`. -/
def open_device (env : Env) (device_index : Int) (st : St) : Bool × St :=
  if !st.sc.lib || !st.sc.is_initialized then (false, st)
  else
    match env.openDeviceRet with
    | .error _ => (false, st.call .vOpenDevice)
    | .ok none =>
      let st := st.call .vOpenDevice
      let (_, st) := get_device_count env st
      let (_, st) := get_device_count env st
      (false, st)
    | .ok (some h) =>
      let st := st.call .vOpenDevice
      (true, { st with sc := { st.sc with device_handle := some h } })

/-- `close_device` (lines 152-166): no-op without library or device handle;
calls `ZKFPM_CloseDevice` then clears the handle; on exception the handle is
left as it was (the assignment on line 163 is skipped). -/
def close_device (env : Env) (st : St) : St :=
  if !st.sc.lib || st.sc.device_handle = none then st
  else
    match env.closeRet with
    | .error _ => st.call .vCloseDevice
    | .ok _ =>
      let st := st.call .vCloseDevice
      { st with sc := { st.sc with device_handle := none } }

/-- The `ZKFPM_Terminate` part of `terminate` (lines 181-186), reached after
`ZKFPM_DBFree` succeeded or was skipped: on success clear `is_initialized`;
on exception leave it set. -/
def termSdk (env : Env) (st : St) : St :=
  match env.terminateRet with
  | .error _ => st.call .vTerminate
  | .ok _ =>
    let st := st.call .vTerminate
    { st with sc := { st.sc with is_initialized := false } }

/-- `terminate` (lines 168-189): no-op without library or when not
initialized; frees the database handle when held (an exception there aborts
the whole `try`, leaving `db_handle` and `is_initialized` set), then calls
`ZKFPM_Terminate` and clears `is_initialized`. -/
def terminate (env : Env) (st : St) : St :=
  if !st.sc.lib || !st.sc.is_initialized then st
  else
    match st.sc.db_handle with
    | none => termSdk env st
    | some _ =>
      match env.dbFreeRet with
      | .error _ => st.call .vDBFree
      | .ok _ =>
        let st := st.call .vDBFree
        termSdk env { st with sc := { st.sc with db_handle := none } }

/-- Contents of a `create_string_buffer(max_template_size)` after the vendor
wrote `buf` into it: the written prefix followed by the zero initialization,
exactly 2048 bytes (`template_buf.raw`). -/
def bufRaw (buf : List Nat) : List Nat :=
  (buf ++ List.replicate max_template_size 0).take max_template_size

/-- `capture_fingerprint` (lines 191-237): guard on library and device handle;
call `ZKFPM_AcquireFingerprint`; a non-OK return code (or an exception) yields
`None`; on OK, return `template_buf.raw[:actual_len]` with the constant
quality estimate 95. -/
def capture_fingerprint (env : Env) (st : St) : Option (List Nat × Nat) × St :=
  if !st.sc.lib || st.sc.device_handle = none then (none, st)
  else
    match env.acquireRet st.nAcq with
    | .error _ => (none, { st.call .vAcquire with nAcq := st.nAcq + 1 })
    | .ok (ret, actual_len, buf) =>
      let st := { st.call .vAcquire with nAcq := st.nAcq + 1 }
      if ret ≠ ZKFP_ERR_OK then (none, st)
      else (some ((bufRaw buf).take actual_len, 95), st)

/-- The capture loop of `enroll_fingerprint` (lines 243-253): `k` captures
remain; abort with `None` as soon as one fails, else collect the templates
(`samples.append`; the accumulator is reversed at the end to restore order). -/
def enrollLoop (env : Env) (k : Nat) (st : St) (acc : List (List Nat)) :
    Option (List (List Nat)) × St :=
  match k with
  | 0 => (some acc.reverse, st)
  | k + 1 =>
    match capture_fingerprint env st with
    | (none, st') => (none, st')
    | (some (template, _), st') => enrollLoop env k st' (template :: acc)

/-- `enroll_fingerprint` (lines 239-296): capture `num_samples` times, abort
on any failure; refuse with `None` when fewer than 3 samples were collected;
then call `ZKFPM_GenRegTemplate` (passing `samples[0..2]` and the database
handle; the attribute lookup would raise without a library, and the vendor
answer is `Env.genRegRet`); non-OK return or exception yields `None`, else
the merged buffer truncated to the reported length. -/
def enroll_fingerprint (env : Env) (num_samples : Nat) (st : St) :
    Option (List Nat) × St :=
  match enrollLoop env num_samples st [] with
  | (none, st') => (none, st')
  | (some samples, st') =>
    if samples.length < 3 then (none, st')
    else if !st'.sc.lib then (none, st')
    else
      match env.genRegRet with
      | .error _ => (none, st'.call .vGenReg)
      | .ok (ret, actual_len, buf) =>
        let st' := st'.call .vGenReg
        if ret ≠ ZKFP_ERR_OK then (none, st')
        else (some ((bufRaw buf).take actual_len), st')

/-- Result of `verify_fingerprint`: the dict `{'match': ..., 'similarity': ...}`. -/
structure VerifyResult where
  matchB : Bool
  similarity : Int
deriving DecidableEq, Repr

/-- `verify_fingerprint` (lines 298-342): capture once, `None` on failure;
call `ZKFPM_DBMatch` with the stored and captured templates (the attribute
lookup would raise without a library); a negative similarity is an error
(`None`); otherwise `match` is `similarity >= 60` (ZKTeco default threshold). -/
def verify_fingerprint (env : Env) (stored_template : List Nat) (st : St) :
    Option VerifyResult × St :=
  match capture_fingerprint env st with
  | (none, st') => (none, st')
  | (some _, st') =>
    if !st'.sc.lib then (none, st')
    else
      match env.dbMatchRet with
      | .error _ => (none, st'.call .vDBMatch)
      | .ok similarity =>
        let st' := st'.call .vDBMatch
        if similarity < 0 then (none, st')
        else (some { matchB := decide (60 ≤ similarity), similarity := similarity }, st')

/-- The standard base64 alphabet used by Python's `base64` module. -/
def b64alpha : List Char :=
  "ABCDEFGHIJKLMNOPQRSTUVWXYZabcdefghijklmnopqrstuvwxyz0123456789+/".toList

/-- Character for a sextet value. -/
def b64char (i : Nat) : Char := b64alpha.getD i 'A'

/-- Model of Python `base64.b64encode`: 3-byte groups become 4 alphabet
characters; a trailing group of 1 or 2 bytes is padded with `=`. -/
def encB64 : List Nat → List Char
  | [] => []
  | [a] => [b64char (a / 4), b64char (a % 4 * 16), '=', '=']
  | [a, b] => [b64char (a / 4), b64char (a % 4 * 16 + b / 16), b64char (b % 16 * 4), '=']
  | a :: b :: c :: rest =>
    b64char (a / 4) :: b64char (a % 4 * 16 + b / 16) ::
      b64char (b % 16 * 4 + c / 64) :: b64char (c % 64) :: encB64 rest

/-- `base64.b64encode(template).decode()` as used by the dispatcher. -/
def b64encodeStr (t : List Nat) : String := String.mk (encB64 t)

/-- Position of a character in the base64 alphabet, `none` for every other
character (including `=`). -/
def b64index (c : Char) : Option Nat := b64alpha.indexOf? c

/-- The decoding loop of CPython's `binascii.a2b_base64` in its default
non-strict mode (what `base64.b64decode` with `validate=False` runs), one
character at a time. State: remaining characters, position inside the current
quad (`quad_pos`, 0-3), pending bits (`leftchar`), count of pad characters
seen since the last data character (`pads`), and the bytes emitted so far in
reverse (`acc`). A `=` is ignored while `quad_pos < 2`; with `quad_pos ≥ 2`
it counts toward the padding, and once `quad_pos + pads` reaches 4 decoding
stops successfully, discarding the rest of the input. Characters outside the
alphabet are skipped; a data character resets `pads` and shifts its 6 bits
in, emitting a byte at quad positions 1, 2 and 3. Input exhausted mid-quad
raises (`Except.error`): with one data character over a multiple of 4 the
`Invalid base64-encoded string` error, otherwise `Incorrect padding`. -/
def b64decodeLoop : List Char → Nat → Nat → Nat → List Nat →
    Except String (List Nat)
  | [], 0, _, _, acc => .ok acc.reverse
  | [], 1, _, _, _ => .error "Invalid base64-encoded string"
  | [], _, _, _, _ => .error "Incorrect padding"
  | ch :: rest, quad_pos, leftchar, pads, acc =>
    if ch = '=' then
      if 2 ≤ quad_pos ∧ 4 ≤ quad_pos + (pads + 1) then .ok acc.reverse
      else if 2 ≤ quad_pos then b64decodeLoop rest quad_pos leftchar (pads + 1) acc
      else b64decodeLoop rest quad_pos leftchar pads acc
    else
      match b64index ch with
      | none => b64decodeLoop rest quad_pos leftchar pads acc
      | some v =>
        match quad_pos with
        | 0 => b64decodeLoop rest 1 v 0 acc
        | 1 => b64decodeLoop rest 2 (v % 16) 0 ((leftchar * 4 + v / 16) :: acc)
        | 2 => b64decodeLoop rest 3 (v % 4) 0 ((leftchar * 16 + v / 4) :: acc)
        | _ => b64decodeLoop rest 0 0 0 ((leftchar * 64 + v) :: acc)

/-- Model of Python `base64.b64decode` with the default `validate=False`:
run the `binascii.a2b_base64` non-strict loop from the initial state.
`Except.error` models the `binascii.Error` raise. -/
def b64decode (s : String) : Except String (List Nat) :=
  b64decodeLoop s.toList 0 0 0 []

/-- The dict returned by `handle_request`: `success` is always present, every
other key is optional (`none` both for an absent key and for a `None` value;
the `init` branch always carries the `error` key). `match` is a Lean keyword,
so that key is named `matchB`. -/
structure ResMap where
  success : Bool
  error : Option String := none
  device_count : Option Int := none
  template : Option String := none
  quality : Option Nat := none
  matchB : Option Bool := none
  similarity : Option Int := none
deriving DecidableEq, Repr

/-- `handle_request(request_type, payload)` (lines 345-409). The payload is
modelled by its only consulted entry, `payload.get('template', '')`
(`none` when the key is absent). The body is a `try` with a `finally` that
calls `scanner.terminate()` and NO `except` clause, so the
`base64.b64decode` call on the `verify` path can raise out of the function
(modelled by `Except.error`); every other path returns a dict (`Except.ok`).
On the enroll path `if template:` is falsy both for `None` and for an empty
byte string, so an empty merged template reports failure. The second
component is the final execution state after the `finally`. -/
def handle_request (env : Env) (request_type : String) (payload : Option String) :
    Except String ResMap × St :=
  let st := st0 env
  if request_type = "init" then
    let (success, st) := init env st
    let (device_count, st) := if success then get_device_count env st else (0, st)
    let (opened, st) := if device_count > 0 then open_device env 0 st else (false, st)
    let r : ResMap :=
      { success := success && decide (device_count > 0) && opened,
        device_count := some device_count,
        error := if success then none else some "Failed to initialize SDK" }
    (.ok r, terminate env st)
  else if request_type = "capture" then
    let (_, st) := init env st
    let (_, st) := get_device_count env st
    let (_, st) := open_device env 0 st
    match capture_fingerprint env st with
    | (some (template, quality), st) =>
      (.ok { success := true, template := some (b64encodeStr template),
             quality := some quality }, terminate env st)
    | (none, st) =>
      (.ok { success := false, error := some "Capture failed" }, terminate env st)
  else if request_type = "enroll" then
    let (_, st) := init env st
    let (_, st) := get_device_count env st
    let (_, st) := open_device env 0 st
    match enroll_fingerprint env 3 st with
    | (some template, st) =>
      if template = [] then
        (.ok { success := false, error := some "Enrollment failed" },
         terminate env st)
      else
        (.ok { success := true, template := some (b64encodeStr template) },
         terminate env st)
    | (none, st) =>
      (.ok { success := false, error := some "Enrollment failed" }, terminate env st)
  else if request_type = "verify" then
    let (_, st) := init env st
    let (_, st) := get_device_count env st
    let (_, st) := open_device env 0 st
    match b64decode (payload.getD "") with
    | .error e => (.error e, terminate env st)
    | .ok stored =>
      match verify_fingerprint env stored st with
      | (some r, st) =>
        (.ok { success := true, matchB := some r.matchB,
               similarity := some r.similarity }, terminate env st)
      | (none, st) =>
        (.ok { success := false, error := some "Verification failed" },
         terminate env st)
  else
    (.ok { success := false,
           error := some ("Unknown request type: " ++ request_type) },
     terminate env st)

/-! ### Concrete environments and states used to instantiate the theorems -/

/-- A vendor that answers every call successfully: one device, device handle 7,
acquire writes the 3-byte template `hi!` and reports length 3, match
similarity 75. -/
def envAllOk : Env :=
  { libLoaded := true, initRet := .ok 0, dbInitRet := .ok (some 1),
    deviceCountRet := .ok 1, openDeviceRet := .ok (some 7),
    acquireRet := fun _ => .ok (0, 3, [104, 105, 33]),
    genRegRet := .ok (0, 2, [1, 2]), dbMatchRet := .ok 75,
    closeRet := .ok (), dbFreeRet := .ok (), terminateRet := .ok () }

/-- The DLL failed to resolve; every vendor call (unreachable) would raise. -/
def envNoLib : Env :=
  { libLoaded := false, initRet := .error (), dbInitRet := .error (),
    deviceCountRet := .error (), openDeviceRet := .error (),
    acquireRet := fun _ => .error (), genRegRet := .error (),
    dbMatchRet := .error (), closeRet := .error (), dbFreeRet := .error (),
    terminateRet := .error () }

/-- SDK initialization succeeds but no device is attached. -/
def envNoDev : Env :=
  { libLoaded := true, initRet := .ok 0, dbInitRet := .ok (some 1),
    deviceCountRet := .ok 0, openDeviceRet := .ok none,
    acquireRet := fun _ => .error (), genRegRet := .error (),
    dbMatchRet := .error (), closeRet := .ok (), dbFreeRet := .ok (),
    terminateRet := .ok () }

/-- A state in the middle of a request: SDK initialized, device 7 open. -/
def stOpen : St :=
  { sc := { lib := true, device_handle := some 7, db_handle := some 1,
            is_initialized := true },
    nAcq := 0, trace := [] }

/-- The vendor only ever writes byte values (< 256) into the template
buffers, as any real DLL writing through a `char*` does. -/
def EnvBytes (env : Env) : Prop :=
  (∀ n r len buf, env.acquireRet n = Except.ok (r, len, buf) →
    ∀ x ∈ buf, x < 256) ∧
  (∀ r len buf, env.genRegRet = Except.ok (r, len, buf) → ∀ x ∈ buf, x < 256)

/-- Invariant of every state reachable inside `handle_request`: an
initialized SDK implies a resolved library, a held database handle implies an
initialized SDK, and the vendor close-device function was never invoked
(nothing in `handle_request` calls `close_device`). -/
def Inv (st : St) : Prop :=
  (st.sc.is_initialized = true → st.sc.lib = true) ∧
  (st.sc.db_handle ≠ none → st.sc.is_initialized = true) ∧
  VCall.vCloseDevice ∉ st.trace

@[simp] theorem St.call_sc (st : St) (c : VCall) : (st.call c).sc = st.sc := rfl

@[simp] theorem St.call_trace (st : St) (c : VCall) :
    (st.call c).trace = st.trace ++ [c] := rfl

/-! ### Claims -/

/-- Claim C7: `terminate` is idempotent: from any scanner state, running it a
second time leaves exactly the scanner state the first run produced (whatever
the vendor does, including raising in `ZKFPM_DBFree` or `ZKFPM_Terminate`). -/
theorem C7_terminate_idempotent (env : Env) (st : St) :
    (terminate env (terminate env st)).sc = (terminate env st).sc := by
  rcases st with ⟨⟨lib, dev, db, ini⟩, n, tr⟩
  cases lib <;> cases ini <;> rcases db with _ | dbh <;>
    rcases hf : env.dbFreeRet with _ | u <;>
      rcases ht : env.terminateRet with _ | v <;>
        simp [terminate, termSdk, St.call, hf, ht]

/-- Claim C6: before SDK initialization has succeeded (`is_initialized` false,
or the library unresolved), `get_device_count` returns 0 and `open_device`
returns `False`, both without invoking any vendor function (the state,
including the vendor-call trace, is unchanged). -/
theorem C6_guarded_before_init (env : Env) (st : St) (device_index : Int)
    (h : st.sc.is_initialized = false ∨ st.sc.lib = false) :
    get_device_count env st = (0, st) ∧
    open_device env device_index st = (false, st) := by
  rcases h with h | h <;> simp [get_device_count, open_device, h]

/-- Witness for C6 at the fresh per-request state. -/
theorem C6_witness :
    get_device_count envAllOk (st0 envAllOk) = (0, st0 envAllOk) ∧
    open_device envAllOk 0 (st0 envAllOk) = (false, st0 envAllOk) :=
  C6_guarded_before_init envAllOk (st0 envAllOk) 0 (Or.inl rfl)

/-- Claim C5: an unknown request tag yields a failure result whose error
message names the tag, and the final state is exactly the fresh state: its
empty trace shows no vendor SDK function was invoked. -/
theorem C5_unknown_tag (env : Env) (tag : String) (payload : Option String)
    (h1 : tag ≠ "init") (h2 : tag ≠ "capture") (h3 : tag ≠ "enroll")
    (h4 : tag ≠ "verify") :
    handle_request env tag payload =
      (Except.ok { success := false,
                   error := some ("Unknown request type: " ++ tag) },
       st0 env) := by
  simp [handle_request, h1, h2, h3, h4, terminate, st0, mkScanner]

/-- Witness for C5 at the concrete unknown tag `status`. -/
theorem C5_witness :
    handle_request envAllOk "status" none =
      (Except.ok { success := false,
                   error := some ("Unknown request type: " ++ "status") },
       st0 envAllOk) :=
  C5_unknown_tag envAllOk "status" none (by decide) (by decide) (by decide)
    (by decide)

/-- Claim C3: in `verify_fingerprint`, once the fresh capture has succeeded
(library loaded, device open, acquire returning OK), the vendor match value
`s` decides the result: `s >= 60` gives `match = true` with similarity `s`;
`0 <= s < 60` gives `match = false` with similarity `s`; `s < 0` is an error
and the operation yields `None` rather than a match result. -/
theorem C3_verify_threshold (env : Env) (stored : List Nat) (st : St)
    (s : Int) (len : Nat) (buf : List Nat) (dh : Nat)
    (hlib : st.sc.lib = true) (hdev : st.sc.device_handle = some dh)
    (hacq : env.acquireRet st.nAcq = Except.ok (0, len, buf))
    (hm : env.dbMatchRet = Except.ok s) :
    (60 ≤ s → (verify_fingerprint env stored st).1 = some ⟨true, s⟩) ∧
    (0 ≤ s → s < 60 → (verify_fingerprint env stored st).1 = some ⟨false, s⟩) ∧
    (s < 0 → (verify_fingerprint env stored st).1 = none) := by
  refine ⟨fun h60 => ?_, fun h0 h60 => ?_, fun hneg => ?_⟩
  · have hns : ¬s < 0 := by omega
    simp [verify_fingerprint, capture_fingerprint, hlib, hdev, hacq, hm,
          ZKFP_ERR_OK, hns, h60]
  · have hns : ¬s < 0 := by omega
    have h60n : ¬60 ≤ s := by omega
    simp [verify_fingerprint, capture_fingerprint, hlib, hdev, hacq, hm,
          ZKFP_ERR_OK, hns, h60n]
  · simp [verify_fingerprint, capture_fingerprint, hlib, hdev, hacq, hm,
          ZKFP_ERR_OK, hneg]

/-- Witness for C3: similarity 75 against threshold 60 gives a match. -/
theorem C3_witness :
    (verify_fingerprint envAllOk [] stOpen).1 = some ⟨true, 75⟩ :=
  (C3_verify_threshold envAllOk [] stOpen 75 3 [104, 105, 33] 7 rfl rfl rfl
    rfl).1 (by decide)

/-- Claim C8: when the vendor acquire call returns OK (0) reporting length
`len`, `capture_fingerprint` returns exactly the first `len` bytes of the
2048-byte template buffer (so at most 2048 bytes) paired with the constant
quality 95; any non-zero return code yields `None`. -/
theorem C8_capture_truncation (env : Env) (st : St) (ret : Int) (len : Nat)
    (buf : List Nat) (dh : Nat)
    (hlib : st.sc.lib = true) (hdev : st.sc.device_handle = some dh)
    (hacq : env.acquireRet st.nAcq = Except.ok (ret, len, buf)) :
    (ret = 0 →
      (capture_fingerprint env st).1 = some ((bufRaw buf).take len, 95) ∧
      ((bufRaw buf).take len).length = min len max_template_size) ∧
    (ret ≠ 0 → (capture_fingerprint env st).1 = none) := by
  constructor
  · intro h0
    have hlen : (bufRaw buf).length = max_template_size := by
      simp [bufRaw]
    constructor
    · simp [capture_fingerprint, hlib, hdev, hacq, h0, ZKFP_ERR_OK]
    · simp [List.length_take, hlen]
  · intro hne
    simp [capture_fingerprint, hlib, hdev, hacq, ZKFP_ERR_OK, hne]

/-- Witness for C8: a successful acquire of a 3-byte template. -/
theorem C8_witness :
    (capture_fingerprint envAllOk stOpen).1 =
      some ((bufRaw [104, 105, 33]).take 3, 95) ∧
    ((bufRaw [104, 105, 33]).take 3).length = min 3 max_template_size :=
  (C8_capture_truncation envAllOk stOpen 0 3 [104, 105, 33] 7 rfl rfl rfl).1
    rfl

/-- Claim C10: for an `init` request the `error` field is `None` exactly when
`scanner.init()` succeeded (otherwise it is `Failed to initialize SDK`), even
though `success` also requires a device; so the result can have
`success = false` together with `error = None`, as the concrete no-device
environment shows. -/
theorem C10_init_error_field :
    (∀ (env : Env) (payload : Option String), ∃ m : ResMap,
        (handle_request env "init" payload).1 = Except.ok m ∧
        m.error = (if (init env (st0 env)).1 then none
                   else some "Failed to initialize SDK")) ∧
    (∃ m : ResMap, (handle_request envNoDev "init" none).1 = Except.ok m ∧
        m.success = false ∧ m.error = none) := by
  constructor
  · intro env payload
    unfold handle_request
    rw [if_pos rfl]
    repeat' split
    all_goals exact ⟨_, rfl, by simp_all⟩
  · exact ⟨_, rfl, rfl, rfl⟩

/-- A successful enroll capture loop collects exactly one template per pass. -/
theorem enrollLoop_length (env : Env) :
    ∀ (k : Nat) (st : St) (acc : List (List Nat)) (l : List (List Nat)) (st' : St),
      enrollLoop env k st acc = (some l, st') → l.length = acc.length + k
  | 0, st, acc, l, st', h => by
    simp only [enrollLoop, Prod.mk.injEq] at h
    obtain ⟨h1, -⟩ := h
    obtain rfl : acc.reverse = l := Option.some.inj h1
    simp
  | k + 1, st, acc, l, st', h => by
    simp only [enrollLoop] at h
    rcases hc : capture_fingerprint env st with ⟨o, stc⟩
    rw [hc] at h
    rcases o with _ | ⟨t, q⟩
    · simp at h
    · have := enrollLoop_length env k stc (t :: acc) l st' h
      simp only [List.length_cons] at this
      omega

/-- If the first `j` passes of the capture loop already fail, running it for
any larger count fails identically (the loop aborts at the first failure). -/
theorem enrollLoop_fail_extend (env : Env) :
    ∀ (j k : Nat) (st : St) (acc : List (List Nat)),
      (enrollLoop env j st acc).1 = none →
      enrollLoop env (j + k) st acc = enrollLoop env j st acc
  | 0, k, st, acc, h => by simp [enrollLoop] at h
  | j + 1, k, st, acc, h => by
    have hs : j + 1 + k = (j + k) + 1 := by omega
    rw [hs]
    simp only [enrollLoop] at h ⊢
    rcases hc : capture_fingerprint env st with ⟨o, stc⟩
    rw [hc] at h
    rcases o with _ | ⟨t, q⟩
    · rfl
    · exact enrollLoop_fail_extend env j k stc (t :: acc) h

/-- `capture_fingerprint` adds at most a `vAcquire` event to the trace. -/
theorem capture_trace (env : Env) (st : St) (c : VCall)
    (h : c ∈ (capture_fingerprint env st).2.trace) :
    c ∈ st.trace ∨ c = VCall.vAcquire := by
  unfold capture_fingerprint at h
  split at h
  · exact Or.inl h
  · split at h
    · simp only [St.call] at h
      simp at h
      tauto
    · split at h
      · simp only [St.call] at h
        simp at h
        tauto
      · simp only [St.call] at h
        simp at h
        tauto

/-- The enroll capture loop adds only `vAcquire` events to the trace. -/
theorem enrollLoop_trace (env : Env) :
    ∀ (k : Nat) (st : St) (acc : List (List Nat)) (c : VCall),
      c ∈ (enrollLoop env k st acc).2.trace →
      c ∈ st.trace ∨ c = VCall.vAcquire
  | 0, st, acc, c, h => Or.inl h
  | k + 1, st, acc, c, h => by
    simp only [enrollLoop] at h
    rcases hc : capture_fingerprint env st with ⟨o, stc⟩
    rw [hc] at h
    have hstc : ∀ c, c ∈ stc.trace → c ∈ st.trace ∨ c = VCall.vAcquire := by
      intro c hc2
      have := capture_trace env st c
      rw [hc] at this
      exact this hc2
    rcases o with _ | ⟨t, q⟩
    · exact hstc c h
    · rcases enrollLoop_trace env k stc (t :: acc) c h with h2 | h2
      · exact hstc c h2
      · exact Or.inr h2

/-- Claim C4: `enroll_fingerprint` never produces a merged template from
fewer than 3 successful captures. With any configured `num_samples < 3` it
returns `None` outright (hard floor of 3); and whenever one of the first 3
captures fails, the enroll fails, returning `None` without ever invoking the
vendor merge function `ZKFPM_GenRegTemplate` (no `vGenReg` joins the trace). -/
theorem C4_enroll_floor (env : Env) (st : St) (n : Nat) :
    (n < 3 → (enroll_fingerprint env n st).1 = none) ∧
    ((enrollLoop env 3 st []).1 = none →
      (enroll_fingerprint env n st).1 = none ∧
      (VCall.vGenReg ∈ (enroll_fingerprint env n st).2.trace →
        VCall.vGenReg ∈ st.trace)) := by
  constructor
  · intro h3
    unfold enroll_fingerprint
    split
    · rfl
    · rename_i samples st' hl
      have := enrollLoop_length env n st [] samples st' hl
      simp only [List.length_nil, Nat.zero_add] at this
      rw [if_pos (show samples.length < 3 by omega)]
  · intro hfail
    have tr := fun c => enrollLoop_trace env n st [] c
    unfold enroll_fingerprint
    split
    · rename_i st' hl
      rw [hl] at tr
      refine ⟨rfl, fun hm => ?_⟩
      rcases tr _ hm with h | h
      · exact h
      · exact absurd h (by simp)
    · rename_i samples st' hl
      rw [hl] at tr
      have hlen : samples.length < 3 := by
        rcases Nat.lt_or_ge n 3 with hn | hn
        · have := enrollLoop_length env n st [] samples st' hl
          simp only [List.length_nil, Nat.zero_add] at this
          omega
        · exfalso
          obtain ⟨k, rfl⟩ : ∃ k, n = 3 + k := ⟨n - 3, by omega⟩
          rw [enrollLoop_fail_extend env 3 k st [] hfail] at hl
          rw [hl] at hfail
          simp at hfail
      rw [if_pos hlen]
      refine ⟨rfl, fun hm => ?_⟩
      rcases tr _ hm with h | h
      · exact h
      · exact absurd h (by simp)

/-- Witness for C4: without a resolved library every capture fails, so both a
2-sample and a 3-sample enroll fail. -/
theorem C4_witness :
    (enroll_fingerprint envNoLib 2 (st0 envNoLib)).1 = none ∧
    (enroll_fingerprint envNoLib 3 (st0 envNoLib)).1 = none :=
  ⟨(C4_enroll_floor envNoLib (st0 envNoLib) 2).1 (by decide),
   ((C4_enroll_floor envNoLib (st0 envNoLib) 3).2 (by decide)).1⟩

theorem b64index_char : ∀ i, i < 64 → b64index (b64char i) = some i := by
  decide

theorem b64char_ne_pad (i : Nat) : b64char i ≠ '=' := by
  by_cases hi : i < 64
  · exact (by decide : ∀ j, j < 64 → b64char j ≠ '=') i hi
  · unfold b64char
    rw [List.getD_eq_default]
    · decide
    · have : b64alpha.length = 64 := by decide
      omega

/-- One data character at quad position 0. -/
theorem b64loop_data0 (ch : Char) (rest : List Char) (l p : Nat)
    (acc : List Nat) (v : Nat) (hne : ch ≠ '=') (hv : b64index ch = some v) :
    b64decodeLoop (ch :: rest) 0 l p acc = b64decodeLoop rest 1 v 0 acc := by
  simp [b64decodeLoop, hne, hv]

/-- One data character at quad position 1: the first byte comes out. -/
theorem b64loop_data1 (ch : Char) (rest : List Char) (l p : Nat)
    (acc : List Nat) (v : Nat) (hne : ch ≠ '=') (hv : b64index ch = some v) :
    b64decodeLoop (ch :: rest) 1 l p acc =
      b64decodeLoop rest 2 (v % 16) 0 ((l * 4 + v / 16) :: acc) := by
  simp [b64decodeLoop, hne, hv]

/-- One data character at quad position 2: the second byte comes out. -/
theorem b64loop_data2 (ch : Char) (rest : List Char) (l p : Nat)
    (acc : List Nat) (v : Nat) (hne : ch ≠ '=') (hv : b64index ch = some v) :
    b64decodeLoop (ch :: rest) 2 l p acc =
      b64decodeLoop rest 3 (v % 4) 0 ((l * 16 + v / 4) :: acc) := by
  simp [b64decodeLoop, hne, hv]

/-- One data character at quad position 3: the third byte comes out. -/
theorem b64loop_data3 (ch : Char) (rest : List Char) (l p : Nat)
    (acc : List Nat) (v : Nat) (hne : ch ≠ '=') (hv : b64index ch = some v) :
    b64decodeLoop (ch :: rest) 3 l p acc =
      b64decodeLoop rest 0 0 0 ((l * 64 + v) :: acc) := by
  simp [b64decodeLoop, hne, hv]

/-- A first pad at quad position 2 is remembered and decoding continues. -/
theorem b64loop_pad2 (rest : List Char) (l : Nat) (acc : List Nat) :
    b64decodeLoop ('=' :: rest) 2 l 0 acc = b64decodeLoop rest 2 l 1 acc := by
  simp [b64decodeLoop]

/-- A second pad at quad position 2 completes the quad: decoding stops. -/
theorem b64loop_pad2_done (rest : List Char) (l : Nat) (acc : List Nat) :
    b64decodeLoop ('=' :: rest) 2 l 1 acc = Except.ok acc.reverse := by
  simp [b64decodeLoop]

/-- A pad at quad position 3 completes the quad: decoding stops. -/
theorem b64loop_pad3_done (rest : List Char) (l : Nat) (acc : List Nat) :
    b64decodeLoop ('=' :: rest) 3 l 0 acc = Except.ok acc.reverse := by
  simp [b64decodeLoop]

/-- Running the CPython decode loop over the canonical encoder output of a
byte list appends exactly those bytes to the output. -/
theorem b64_roundtrip_loop : ∀ (t : List Nat) (acc : List Nat),
    (∀ x ∈ t, x < 256) →
    b64decodeLoop (encB64 t) 0 0 0 acc = Except.ok (acc.reverse ++ t)
  | [], acc, _ => by simp [encB64, b64decodeLoop]
  | [a], acc, h => by
    have ha : a < 256 := h a (by simp)
    have h1 := b64index_char (a / 4) (by omega)
    have h2 := b64index_char (a % 4 * 16) (by omega)
    rw [show encB64 [a] =
          b64char (a / 4) :: b64char (a % 4 * 16) :: '=' :: ['='] from rfl,
        b64loop_data0 _ _ _ _ _ _ (b64char_ne_pad _) h1,
        b64loop_data1 _ _ _ _ _ _ (b64char_ne_pad _) h2,
        b64loop_pad2, b64loop_pad2_done]
    simp
    omega
  | [a, b], acc, h => by
    have ha : a < 256 := h a (by simp)
    have hb : b < 256 := h b (by simp)
    have h1 := b64index_char (a / 4) (by omega)
    have h2 := b64index_char (a % 4 * 16 + b / 16) (by omega)
    have h3 := b64index_char (b % 16 * 4) (by omega)
    rw [show encB64 [a, b] = b64char (a / 4) :: b64char (a % 4 * 16 + b / 16)
          :: b64char (b % 16 * 4) :: ['='] from rfl,
        b64loop_data0 _ _ _ _ _ _ (b64char_ne_pad _) h1,
        b64loop_data1 _ _ _ _ _ _ (b64char_ne_pad _) h2,
        b64loop_data2 _ _ _ _ _ _ (b64char_ne_pad _) h3,
        b64loop_pad3_done]
    simp
    omega
  | a :: b :: c :: rest, acc, h => by
    have ha : a < 256 := h a (by simp)
    have hb : b < 256 := h b (by simp)
    have hc : c < 256 := h c (by simp)
    have h1 := b64index_char (a / 4) (by omega)
    have h2 := b64index_char (a % 4 * 16 + b / 16) (by omega)
    have h3 := b64index_char (b % 16 * 4 + c / 64) (by omega)
    have h4 := b64index_char (c % 64) (by omega)
    have ih := b64_roundtrip_loop rest
      (((b % 16 * 4 + c / 64) % 4 * 64 + c % 64) ::
        ((a % 4 * 16 + b / 16) % 16 * 16 + (b % 16 * 4 + c / 64) / 4) ::
        (a / 4 * 4 + (a % 4 * 16 + b / 16) / 16) :: acc)
      (fun x hx => h x (by simp [hx]))
    rw [show encB64 (a :: b :: c :: rest) = b64char (a / 4) ::
          b64char (a % 4 * 16 + b / 16) :: b64char (b % 16 * 4 + c / 64) ::
          b64char (c % 64) :: encB64 rest from rfl,
        b64loop_data0 _ _ _ _ _ _ (b64char_ne_pad _) h1,
        b64loop_data1 _ _ _ _ _ _ (b64char_ne_pad _) h2,
        b64loop_data2 _ _ _ _ _ _ (b64char_ne_pad _) h3,
        b64loop_data3 _ _ _ _ _ _ (b64char_ne_pad _) h4, ih]
    simp
    omega

/-- Base64 round-trip on byte lists: decode after encode is the identity. -/
theorem b64_roundtrip (t : List Nat) (h : ∀ x ∈ t, x < 256) :
    b64decode (b64encodeStr t) = Except.ok t := by
  have := b64_roundtrip_loop t [] h
  simpa [b64decode, b64encodeStr] using this

/-- A successful capture returns a truncation of a vendor-written buffer. -/
theorem capture_some_shape (env : Env) (st : St) (t : List Nat) (q : Nat)
    (st' : St) (h : capture_fingerprint env st = (some (t, q), st')) :
    ∃ r len buf, env.acquireRet st.nAcq = Except.ok (r, len, buf) ∧
      t = (bufRaw buf).take len := by
  unfold capture_fingerprint at h
  split at h
  · simp at h
  · split at h
    · simp at h
    · rename_i x ret len buf heq
      split at h
      · simp at h
      · simp only [Prod.mk.injEq, Option.some.injEq] at h
        exact ⟨ret, len, buf, heq, (h.1.1).symm⟩

/-- A successful enroll returns a truncation of the vendor-merged buffer. -/
theorem enroll_some_shape (env : Env) (n : Nat) (st : St) (u : List Nat)
    (st' : St) (h : enroll_fingerprint env n st = (some u, st')) :
    ∃ r len buf, env.genRegRet = Except.ok (r, len, buf) ∧
      u = (bufRaw buf).take len := by
  unfold enroll_fingerprint at h
  split at h
  · simp at h
  · split at h
    · simp at h
    · split at h
      · simp at h
      · split at h
        · simp at h
        · rename_i x1 x2 x3 x4 x5 ret len buf heq
          split at h
          · simp at h
          · simp only [Prod.mk.injEq, Option.some.injEq] at h
            exact ⟨ret, len, buf, heq, h.1.symm⟩

/-- A truncated template buffer holds only byte values when the vendor wrote
only byte values. -/
theorem bufRaw_take_bytes (buf : List Nat) (len : Nat)
    (hb : ∀ x ∈ buf, x < 256) : ∀ x ∈ (bufRaw buf).take len, x < 256 := by
  intro x hx
  have hx2 : x ∈ bufRaw buf := List.mem_of_mem_take hx
  unfold bufRaw at hx2
  have hx3 : x ∈ buf ++ List.replicate max_template_size 0 :=
    List.mem_of_mem_take hx2
  rcases List.mem_append.mp hx3 with h | h
  · exact hb x h
  · have := List.eq_of_mem_replicate h
    omega

/-- Claim C9: every template produced by `capture_fingerprint` or
`enroll_fingerprint` (under a vendor that writes byte values), base64-encoded
the way the dispatcher encodes it and then base64-decoded, is exactly the
original byte sequence. -/
theorem C9_template_roundtrip (env : Env) (hb : EnvBytes env) :
    (∀ st t q st', capture_fingerprint env st = (some (t, q), st') →
        b64decode (b64encodeStr t) = Except.ok t) ∧
    (∀ st u st', enroll_fingerprint env 3 st = (some u, st') →
        b64decode (b64encodeStr u) = Except.ok u) := by
  constructor
  · intro st t q st' h
    obtain ⟨r, len, buf, hacq, rfl⟩ := capture_some_shape env st t q st' h
    exact b64_roundtrip _ (bufRaw_take_bytes buf len (hb.1 st.nAcq r len buf hacq))
  · intro st u st' h
    obtain ⟨r, len, buf, hreg, rfl⟩ := enroll_some_shape env 3 st u st' h
    exact b64_roundtrip _ (bufRaw_take_bytes buf len (hb.2 r len buf hreg))

theorem envAllOk_bytes : EnvBytes envAllOk := by
  constructor
  · intro n r len buf hh x hx
    simp [envAllOk] at hh
    obtain ⟨-, -, rfl⟩ := hh
    simp at hx
    rcases hx with rfl | rfl | rfl <;> omega
  · intro r len buf hh x hx
    simp [envAllOk] at hh
    obtain ⟨-, -, rfl⟩ := hh
    simp at hx
    rcases hx with rfl | rfl <;> omega

/-- Witness for C9: the 3-byte template the all-OK vendor produces survives
the encode/decode round-trip. -/
theorem C9_witness :
    b64decode (b64encodeStr ((bufRaw [104, 105, 33]).take 3)) =
      Except.ok ((bufRaw [104, 105, 33]).take 3) :=
  (C9_template_roundtrip envAllOk envAllOk_bytes).1 stOpen
    ((bufRaw [104, 105, 33]).take 3) 95
    ⟨stOpen.sc, 1, [VCall.vAcquire]⟩ rfl

/-- Counterexample to claim C2 as stated: after a successful `capture`
request the device handle is still held (`some 7`) and the vendor
close-device function was never invoked — the `finally` only runs
`terminate`, which never closes the device. -/
theorem C2_counterexample :
    (handle_request envAllOk "capture" none).2.sc.device_handle = some 7 ∧
    VCall.vCloseDevice ∉ (handle_request envAllOk "capture" none).2.trace := by
  decide

theorem inv_st0 (env : Env) : Inv (st0 env) := by
  refine ⟨?_, ?_, ?_⟩ <;> simp [Inv, st0, mkScanner]

theorem inv_call (st : St) (c : VCall) (hc : c ≠ VCall.vCloseDevice)
    (h : Inv st) : Inv (st.call c) := by
  refine ⟨h.1, h.2.1, ?_⟩
  simp only [St.call_trace]
  intro hm
  rcases List.mem_append.mp hm with hm | hm
  · exact h.2.2 hm
  · simp at hm
    exact hc hm.symm

theorem inv_init_p (env : Env) (st : St) (hi : Inv st) : Inv (init env st).2 := by
  unfold init
  split
  · exact hi
  · rename_i hg
    have hlib : st.sc.lib = true := by
      simp at hg
      exact hg
    split
    · exact inv_call st _ (by decide) hi
    · split
      · exact inv_call st _ (by decide) hi
      · split
        · exact inv_call (st.call .vInit) _ (by decide)
            (inv_call st _ (by decide) hi)
        · have hz : Inv ((st.call .vInit).call .vDBInit) :=
            inv_call (st.call .vInit) _ (by decide)
              (inv_call st _ (by decide) hi)
          split
          · exact ⟨hz.1, fun hd => absurd rfl hd, hz.2.2⟩
          · exact ⟨fun _ => hlib, fun _ => rfl, hz.2.2⟩

theorem inv_gdc_p (env : Env) (st : St) (hi : Inv st) :
    Inv (get_device_count env st).2 := by
  unfold get_device_count
  split
  · exact hi
  · split
    · exact inv_call st _ (by decide) hi
    · exact inv_call st _ (by decide) hi

theorem inv_open_p (env : Env) (di : Int) (st : St) (hi : Inv st) :
    Inv (open_device env di st).2 := by
  unfold open_device
  split
  · exact hi
  · split
    · exact inv_call st _ (by decide) hi
    · exact inv_gdc_p env _ (inv_gdc_p env _ (inv_call st _ (by decide) hi))
    · have hz : Inv (st.call .vOpenDevice) := inv_call st _ (by decide) hi
      exact ⟨hz.1, hz.2.1, hz.2.2⟩

theorem inv_capture_p (env : Env) (st : St) (hi : Inv st) :
    Inv (capture_fingerprint env st).2 := by
  unfold capture_fingerprint
  split
  · exact hi
  · split
    · exact inv_call st _ (by decide) hi
    · split
      · exact inv_call st _ (by decide) hi
      · exact inv_call st _ (by decide) hi

theorem inv_capture_eq (env : Env) (st : St) (o : Option (List Nat × Nat))
    (st' : St) (h : capture_fingerprint env st = (o, st')) (hi : Inv st) :
    Inv st' := by
  have h2 : (capture_fingerprint env st).2 = st' := by rw [h]
  exact h2 ▸ inv_capture_p env st hi

theorem inv_enrollLoop_p (env : Env) :
    ∀ (k : Nat) (st : St) (acc : List (List Nat)), Inv st →
      Inv (enrollLoop env k st acc).2
  | 0, st, acc, hi => hi
  | k + 1, st, acc, hi => by
    unfold enrollLoop
    split
    · rename_i st' heq
      have h2 : (capture_fingerprint env st).2 = st' := by rw [heq]
      exact h2 ▸ inv_capture_p env st hi
    · rename_i t q st' heq
      exact inv_enrollLoop_p env k st' (t :: acc)
        (inv_capture_eq env st _ st' heq hi)

theorem inv_enroll_p (env : Env) (n : Nat) (st : St) (hi : Inv st) :
    Inv (enroll_fingerprint env n st).2 := by
  unfold enroll_fingerprint
  split
  · rename_i st' heq
    have h2 : (enrollLoop env n st []).2 = st' := by rw [heq]
    exact h2 ▸ inv_enrollLoop_p env n st [] hi
  · rename_i samples st' heq
    have hz : Inv st' := by
      have h2 : (enrollLoop env n st []).2 = st' := by rw [heq]
      exact h2 ▸ inv_enrollLoop_p env n st [] hi
    split
    · exact hz
    · split
      · exact hz
      · split
        · exact inv_call st' _ (by decide) hz
        · split
          · exact inv_call st' _ (by decide) hz
          · exact inv_call st' _ (by decide) hz

theorem inv_verify_p (env : Env) (stored : List Nat) (st : St) (hi : Inv st) :
    Inv (verify_fingerprint env stored st).2 := by
  unfold verify_fingerprint
  split
  · rename_i st' heq
    have h2 : (capture_fingerprint env st).2 = st' := by rw [heq]
    exact h2 ▸ inv_capture_p env st hi
  · rename_i x st' heq
    have hz : Inv st' := inv_capture_eq env st _ st' heq hi
    split
    · exact hz
    · split
      · exact inv_call st' _ (by decide) hz
      · split
        · exact inv_call st' _ (by decide) hz
        · exact inv_call st' _ (by decide) hz

theorem inv_init_eq (env : Env) (st : St) (b : Bool) (st' : St)
    (h : init env st = (b, st')) (hi : Inv st) : Inv st' := by
  have h2 : (init env st).2 = st' := by rw [h]
  exact h2 ▸ inv_init_p env st hi

theorem inv_gdc_eq (env : Env) (st : St) (dc : Int) (st' : St)
    (h : get_device_count env st = (dc, st')) (hi : Inv st) : Inv st' := by
  have h2 : (get_device_count env st).2 = st' := by rw [h]
  exact h2 ▸ inv_gdc_p env st hi

theorem inv_open_eq (env : Env) (di : Int) (st : St) (b : Bool) (st' : St)
    (h : open_device env di st = (b, st')) (hi : Inv st) : Inv st' := by
  have h2 : (open_device env di st).2 = st' := by rw [h]
  exact h2 ▸ inv_open_p env di st hi

theorem inv_enroll_eq (env : Env) (n : Nat) (st : St) (o : Option (List Nat))
    (st' : St) (h : enroll_fingerprint env n st = (o, st')) (hi : Inv st) :
    Inv st' := by
  have h2 : (enroll_fingerprint env n st).2 = st' := by rw [h]
  exact h2 ▸ inv_enroll_p env n st hi

theorem inv_verify_eq (env : Env) (stored : List Nat) (st : St)
    (o : Option VerifyResult) (st' : St)
    (h : verify_fingerprint env stored st = (o, st')) (hi : Inv st) :
    Inv st' := by
  have h2 : (verify_fingerprint env stored st).2 = st' := by rw [h]
  exact h2 ▸ inv_verify_p env stored st hi

theorem inv_of_pair_eq {α : Type} (x : α) (s1 : St) (y : α) (s2 : St)
    (h : (x, s1) = (y, s2)) (hi : Inv s1) : Inv s2 := by
  obtain ⟨-, rfl⟩ := Prod.mk.injEq .. ▸ h
  exact hi

/-- From an `Inv` state, `terminate` with non-raising vendor free/terminate
calls leaves no database handle, clears the initialization flag, and still
has never called close-device. -/
theorem terminate_clears (env : Env) (st : St) (hi : Inv st)
    (hf : env.dbFreeRet = Except.ok ()) (ht : env.terminateRet = Except.ok ()) :
    (terminate env st).sc.db_handle = none ∧
    (terminate env st).sc.is_initialized = false ∧
    VCall.vCloseDevice ∉ (terminate env st).trace := by
  unfold terminate
  split
  · rename_i hg
    simp only [Bool.or_eq_true, Bool.not_eq_true'] at hg
    have hini : st.sc.is_initialized = false := by
      rcases hg with hg | hg
      · rcases hB : st.sc.is_initialized with _ | _
        · rfl
        · exact absurd (hi.1 hB) (by simp [hg])
      · exact hg
    have hdb : st.sc.db_handle = none := by
      by_contra hd
      exact absurd (hi.2.1 hd) (by simp [hini])
    exact ⟨hdb, hini, hi.2.2⟩
  · split
    · rename_i hdb
      simp [termSdk, ht, St.call, hdb, hi.2.2]
    · simp [hf, termSdk, ht, St.call, hi.2.2]

set_option maxHeartbeats 1000000 in
/-- Every `handle_request` path ends by applying `terminate` (the `finally`)
to a state satisfying the request invariant. -/
theorem handle_request_pre (env : Env) (tag : String) (payload : Option String) :
    ∃ stp : St, (handle_request env tag payload).2 = terminate env stp ∧
      Inv stp := by
  unfold handle_request
  dsimp only
  repeat' split
  all_goals refine ⟨_, rfl, ?_⟩
  all_goals first
    | exact inv_capture_eq _ _ _ _ (by assumption)
        (inv_open_p _ 0 _ (inv_gdc_p _ _ (inv_init_p _ _ (inv_st0 _))))
    | exact inv_enroll_eq _ _ _ _ _ (by assumption)
        (inv_open_p _ 0 _ (inv_gdc_p _ _ (inv_init_p _ _ (inv_st0 _))))
    | exact inv_verify_eq _ _ _ _ _ (by assumption)
        (inv_open_p _ 0 _ (inv_gdc_p _ _ (inv_init_p _ _ (inv_st0 _))))
    | exact inv_open_p _ 0 _ (inv_gdc_p _ _ (inv_init_p _ _ (inv_st0 _)))
    | exact inv_open_p _ 0 _ (inv_init_p _ _ (inv_st0 _))
    | exact inv_gdc_p _ _ (inv_init_p _ _ (inv_st0 _))
    | exact inv_init_p _ _ (inv_st0 _)
    | exact inv_st0 _

/-- Amended claim C2: for every request tag, payload and outcome, the
`finally` block runs `terminate`: provided the vendor free/terminate calls do
not raise, after the request the database handle is freed and the SDK is
terminated (`is_initialized` false). The device handle, however, is NOT
closed: `handle_request` never invokes the vendor close-device function, so
the device handle can remain held (see the counterexample). -/
theorem C2_amended_teardown (env : Env) (tag : String) (payload : Option String)
    (hf : env.dbFreeRet = Except.ok ()) (ht : env.terminateRet = Except.ok ()) :
    (handle_request env tag payload).2.sc.db_handle = none ∧
    (handle_request env tag payload).2.sc.is_initialized = false ∧
    VCall.vCloseDevice ∉ (handle_request env tag payload).2.trace := by
  obtain ⟨stp, heq, hi⟩ := handle_request_pre env tag payload
  rw [heq]
  exact terminate_clears env stp hi hf ht

/-- Witness for the amended C2: after the all-OK `capture` request the
database handle is freed and the SDK terminated. -/
theorem C2_amended_witness :
    (handle_request envAllOk "capture" none).2.sc.db_handle = none ∧
    (handle_request envAllOk "capture" none).2.sc.is_initialized = false ∧
    VCall.vCloseDevice ∉ (handle_request envAllOk "capture" none).2.trace :=
  C2_amended_teardown envAllOk "capture" none rfl rfl

end ZKTecoBridge
